import Mathlib

/-!
# MoneyMaker — shallow embedding and verification

A shallow embedding of the trading core of the MoneyMaker repository
(`src/shared/models.py`, `src/shared/firestore_client.py`,
`src/services/trader/service.py`, `src/services/ai_suggester/service.py`,
`src/services/monitor/service.py`, `src/services/scraper/filters.py`,
`src/services/orchestrator/workflows.py`).

Currency amounts, prices and percentages are modelled as `ℚ` (the code uses
Python floats; the specification speaks of exact currency arithmetic).
Wall-clock timestamps (`created_at`, `updated_at`, `filled_at`) carried by the
Python models are omitted: no rule under verification reads them.  Reason and
error strings produced with Python f-string interpolation are modelled as
inductive tags carrying their numeric payloads; each constructor's doc comment
records the exact literal template from the source.
-/

namespace MoneyMaker

/-- `TradingMode` from `shared/models.py`: real or fake money. -/
inductive TradingMode
  | real
  | fake
deriving DecidableEq, Repr

/-- `OrderSide` from `shared/models.py`. -/
inductive OrderSide
  | buy
  | sell
deriving DecidableEq, Repr

/-- `OrderStatus` from `shared/models.py`. -/
inductive OrderStatus
  | pending
  | filled
  | partially_filled
  | cancelled
  | failed
deriving DecidableEq, Repr

/-- `TransactionType` from `shared/models.py`. -/
inductive TransactionType
  | deposit
  | withdrawal
  | buy
  | sell
  | fee
deriving DecidableEq, Repr

/-- `RiskLevel` from `shared/models.py`. -/
inductive RiskLevel
  | very_low
  | low
  | medium
  | high
  | very_high
deriving DecidableEq, Repr

/-- `Wallet` from `shared/models.py` (timestamps omitted). -/
structure Wallet where
  wallet_id : String
  balance : ℚ
  currency : String := "USDC"
deriving DecidableEq, Repr

/-- `Wallet.can_afford`: `return self.balance >= amount`. -/
def Wallet.can_afford (w : Wallet) (amount : ℚ) : Bool :=
  w.balance ≥ amount

/-- `Wallet.deduct`: fails (returning the wallet unchanged) when the wallet
cannot afford `amount`, otherwise subtracts `amount` from the balance.  The
Python method mutates in place and returns a `bool`; here the updated wallet is
returned alongside the success flag. -/
def Wallet.deduct (w : Wallet) (amount : ℚ) : Bool × Wallet :=
  if w.can_afford amount then
    (true, { w with balance := w.balance - amount })
  else
    (false, w)

/-- `Wallet.add`: unconditionally adds `amount` to the balance. -/
def Wallet.add (w : Wallet) (amount : ℚ) : Wallet :=
  { w with balance := w.balance + amount }

/-- A wallet mutation, as delimited by the spec's data model: every mutation is
either a credit (`Wallet.add`) or a debit (`Wallet.deduct`). -/
inductive WalletOp
  | credit (amount : ℚ)
  | debit (amount : ℚ)
deriving DecidableEq, Repr

/-- Apply one `WalletOp` to a wallet (a failed debit leaves it unchanged). -/
def WalletOp.apply (w : Wallet) : WalletOp → Wallet
  | .credit amount => w.add amount
  | .debit amount => (w.deduct amount).2

/-- Apply a sequence of wallet mutations in order. -/
def Wallet.applyOps (w : Wallet) (ops : List WalletOp) : Wallet :=
  ops.foldl WalletOp.apply w

/-- Every credit amount in a list of operations is non-negative (debit amounts
are unrestricted: a failed debit is a no-op and a successful one cannot
overdraw). -/
def creditsNonneg (ops : List WalletOp) : Prop :=
  ∀ a, WalletOp.credit a ∈ ops → 0 ≤ a

lemma Wallet.deduct_nonneg (w : Wallet) (amount : ℚ) (h : 0 ≤ w.balance) :
    0 ≤ ((w.deduct amount).2).balance := by
  unfold Wallet.deduct Wallet.can_afford
  split
  · next hc =>
    simp only [decide_eq_true_eq] at hc
    simpa using sub_nonneg.mpr hc
  · simpa using h

/-- **C3.** `Wallet.deduct` with `amount ≤ balance_old` succeeds and the
balance afterwards is exactly `balance_old − amount`; with
`amount > balance_old` it returns failure and leaves the wallet unchanged.
Consequently a balance that starts non-negative never goes negative under any
sequence of credits (with non-negative amounts) and debits. -/
theorem wallet_deduct_spec (w : Wallet) (amount : ℚ) :
    (amount ≤ w.balance →
      (w.deduct amount).1 = true ∧ ((w.deduct amount).2).balance = w.balance - amount) ∧
    (w.balance < amount →
      (w.deduct amount).1 = false ∧ (w.deduct amount).2 = w) ∧
    (∀ ops : List WalletOp, 0 ≤ w.balance → creditsNonneg ops →
      0 ≤ (w.applyOps ops).balance) := by
  refine ⟨?_, ?_, ?_⟩
  · intro h
    unfold Wallet.deduct Wallet.can_afford
    rw [if_pos (by simpa using h)]
    exact ⟨rfl, rfl⟩
  · intro h
    unfold Wallet.deduct Wallet.can_afford
    rw [if_neg (by simpa using not_le.mpr h)]
    exact ⟨rfl, rfl⟩
  · intro ops
    induction ops generalizing w with
    | nil => intro h _; simpa [Wallet.applyOps] using h
    | cons op rest ih =>
      intro h hcred
      have hstep : 0 ≤ (WalletOp.apply w op).balance := by
        cases op with
        | credit a =>
          have ha : 0 ≤ a := hcred a (List.mem_cons_self _ _)
          simpa [WalletOp.apply, Wallet.add] using add_nonneg h ha
        | debit a => exact Wallet.deduct_nonneg w a h
      have hcred' : creditsNonneg rest := by
        intro a ha
        exact hcred a (List.mem_cons_of_mem _ ha)
      have := ih (WalletOp.apply w op) hstep hcred'
      simpa [Wallet.applyOps, List.foldl_cons] using this

/-- Witness for C3 at a concrete wallet: balance 10, debit 4 succeeds leaving
6; debit 20 fails leaving the wallet unchanged; credit 5 then debit 100 keeps
the balance non-negative. -/
theorem wallet_deduct_spec_witness :
    ((Wallet.mk "default" 10 "USDC").deduct 4).1 = true ∧
    (((Wallet.mk "default" 10 "USDC").deduct 4).2).balance = 6 ∧
    ((Wallet.mk "default" 10 "USDC").deduct 20).1 = false ∧
    ((Wallet.mk "default" 10 "USDC").deduct 20).2 = Wallet.mk "default" 10 "USDC" ∧
    0 ≤ ((Wallet.mk "default" 10 "USDC").applyOps
      [WalletOp.credit 5, WalletOp.debit 100]).balance := by
  have h₁ := (wallet_deduct_spec (Wallet.mk "default" 10 "USDC") 4).1 (by norm_num)
  have h₂ := (wallet_deduct_spec (Wallet.mk "default" 10 "USDC") 20).2.1 (by norm_num)
  have h₃ := (wallet_deduct_spec (Wallet.mk "default" 10 "USDC") 4).2.2
      [WalletOp.credit 5, WalletOp.debit 100] (by norm_num)
      (by
        intro a ha
        simp only [List.mem_cons, List.not_mem_nil, or_false] at ha
        rcases ha with ha | ha
        · cases ha; norm_num
        · cases ha)
  refine ⟨h₁.1, ?_, h₂.1, h₂.2, h₃⟩
  rw [h₁.2]; norm_num

/-- `AISuggestion` from `shared/models.py` (timestamps omitted). -/
structure AISuggestion where
  market_id : String
  market_question : String := ""
  recommended_outcome : String
  confidence : ℚ
  reasoning : String := ""
  suggested_position_size : ℚ := 1/10
  risk_level : RiskLevel := RiskLevel.medium
deriving DecidableEq, Repr

/-- `SellThresholds` from `shared/config.py`. -/
structure SellThresholds where
  stop_loss_percent : ℚ := -15
  take_profit_percent : ℚ := 30
deriving DecidableEq, Repr

/-- `TradingConfig` from `shared/config.py`. -/
structure TradingConfig where
  min_balance_to_trade : ℚ := 10
  max_bet_amount : ℚ := 50
  max_positions : ℕ := 10
  sell_thresholds : SellThresholds := {}
deriving DecidableEq, Repr

/-- `AIConfig` from `shared/config.py` (model name and generation knobs
omitted: only `max_suggestions` and `confidence_threshold` feed the core). -/
structure AIConfig where
  max_suggestions : ℕ := 5
  confidence_threshold : ℚ := 7/10
deriving DecidableEq, Repr

/-- `MarketFiltersConfig` from `shared/config.py`. -/
structure MarketFiltersConfig where
  min_volume : ℚ := 1000
  max_time_to_resolution_hours : ℚ := 1
  min_liquidity : ℚ := 500
  excluded_categories : List String := ["sports", "entertainment"]
  min_price : ℚ := 1/20
  max_price : ℚ := 19/20
deriving DecidableEq, Repr

/-- The slice of `Settings` (`shared/config.py`) the trading core reads. -/
structure Settings where
  real_money_enabled : Bool := false
  fake_money_enabled : Bool := true
  trading : TradingConfig := {}
  market_filters : MarketFiltersConfig := {}
  ai : AIConfig := {}
deriving DecidableEq, Repr

/-- Outcome tag of `AISuggesterService.should_trade`
(`services/ai_suggester/service.py`).  Each constructor stands for the exact
f-string literal the source returns:
* `confidenceBelowThreshold c t` — `"Confidence {c:.0%} below threshold {t:.0%}"`
* `balanceBelowMinimum b m` — `"Balance ${b:.2f} below minimum ${m:.2f}"`
* `positionTooSmall s` — `"Position size ${s:.2f} too small"`
* `tradeApproved` — `"Trade approved"` -/
inductive ShouldTradeReason
  | confidenceBelowThreshold (confidence threshold : ℚ)
  | balanceBelowMinimum (balance min_balance : ℚ)
  | positionTooSmall (size : ℚ)
  | tradeApproved
deriving DecidableEq, Repr

/-- `AISuggesterService.should_trade` (`services/ai_suggester/service.py`,
lines 168–205): the SuggestionGate.  Checks, in source order: confidence
against `settings.ai.confidence_threshold`; computes
`position_size = min(balance × suggested_position_size, max_bet_amount,
balance × max_position_percent)`; balance against
`settings.trading.min_balance_to_trade`; `position_size` against the minimum
viable trade unit `1.0`; otherwise approves with `position_size`.
`max_position_percent` defaults to `0.1` at the Python call sites. -/
def should_trade (settings : Settings) (suggestion : AISuggestion)
    (wallet_balance : ℚ) (max_position_percent : ℚ := 1/10) :
    Bool × ShouldTradeReason × ℚ :=
  let min_confidence := settings.ai.confidence_threshold
  if suggestion.confidence < min_confidence then
    (false, .confidenceBelowThreshold suggestion.confidence min_confidence, 0)
  else
    let max_bet := settings.trading.max_bet_amount
    let suggested_size := wallet_balance * suggestion.suggested_position_size
    let position_size := min (min suggested_size max_bet) (wallet_balance * max_position_percent)
    let min_balance := settings.trading.min_balance_to_trade
    if wallet_balance < min_balance then
      (false, .balanceBelowMinimum wallet_balance min_balance, 0)
    else if position_size < 1 then
      (false, .positionTooSmall position_size, 0)
    else
      (true, .tradeApproved, position_size)

/-- **C1.** The SuggestionGate evaluates its rules in order and the first
failing rule determines the rejection reason: confidence below threshold
first; then balance below `min_balance_to_trade`; then, with
`size = min(suggested_position_size × balance, max_bet_amount,
max_position_percent × balance)`, size below `1.0`; otherwise it accepts
returning exactly that size.  In particular balance `1000`, confidence
`0.85`, fraction `0.1`, `max_bet_amount 50`, `max_position_percent 0.1` is
accepted with size `50`. -/
theorem should_trade_spec (settings : Settings) (s : AISuggestion)
    (balance mpp : ℚ) :
    (s.confidence < settings.ai.confidence_threshold →
      should_trade settings s balance mpp =
        (false, .confidenceBelowThreshold s.confidence settings.ai.confidence_threshold, 0)) ∧
    (settings.ai.confidence_threshold ≤ s.confidence →
      balance < settings.trading.min_balance_to_trade →
      should_trade settings s balance mpp =
        (false, .balanceBelowMinimum balance settings.trading.min_balance_to_trade, 0)) ∧
    (settings.ai.confidence_threshold ≤ s.confidence →
      settings.trading.min_balance_to_trade ≤ balance →
      min (min (balance * s.suggested_position_size) settings.trading.max_bet_amount)
        (balance * mpp) < 1 →
      should_trade settings s balance mpp =
        (false, .positionTooSmall (min (min (balance * s.suggested_position_size)
          settings.trading.max_bet_amount) (balance * mpp)), 0)) ∧
    (settings.ai.confidence_threshold ≤ s.confidence →
      settings.trading.min_balance_to_trade ≤ balance →
      1 ≤ min (min (balance * s.suggested_position_size) settings.trading.max_bet_amount)
        (balance * mpp) →
      should_trade settings s balance mpp =
        (true, .tradeApproved, min (min (balance * s.suggested_position_size)
          settings.trading.max_bet_amount) (balance * mpp))) := by
  refine ⟨?_, ?_, ?_, ?_⟩
  · intro h
    unfold should_trade
    rw [if_pos h]
  · intro hc hb
    unfold should_trade
    rw [if_neg (not_lt.mpr hc), if_pos hb]
  · intro hc hb hs
    unfold should_trade
    rw [if_neg (not_lt.mpr hc), if_neg (not_lt.mpr hb), if_pos hs]
  · intro hc hb hs
    unfold should_trade
    rw [if_neg (not_lt.mpr hc), if_neg (not_lt.mpr hb), if_neg (not_lt.mpr hs)]

/-- Witness for C1: the spec's end-to-end scenario.  With default settings
(confidence threshold `0.7`, `min_balance_to_trade 10`, `max_bet_amount 50`),
balance `1000`, confidence `0.85`, fraction `0.1`, `max_position_percent 0.1`:
`size = min(100, 50, 100) = 50` and the trade is accepted with size `50`. -/
theorem should_trade_spec_witness :
    should_trade {} ⟨"m1", "", "Yes", 17/20, "", 1/10, RiskLevel.medium⟩ 1000 (1/10) =
      (true, .tradeApproved, 50) := by
  have h := (should_trade_spec {} ⟨"m1", "", "Yes", 17/20, "", 1/10, RiskLevel.medium⟩
      1000 (1/10)).2.2.2 (by norm_num) (by norm_num) (by norm_num)
  rw [h]
  norm_num

/-- `Position` from `shared/models.py` (timestamps omitted). -/
structure Position where
  id : String
  market_id : String
  market_question : String := ""
  outcome : String
  entry_price : ℚ
  current_price : ℚ
  quantity : ℚ
  entry_value : ℚ
  current_value : ℚ
  pnl_percent : ℚ := 0
  mode : TradingMode := TradingMode.fake
deriving DecidableEq, Repr

/-- `Position.calculate_pnl`: `(current − entry) / entry × 100`, `0` when the
entry price is `0`. -/
def Position.calculate_pnl (p : Position) : ℚ :=
  if p.entry_price = 0 then 0
  else (p.current_price - p.entry_price) / p.entry_price * 100

/-- `Position.should_stop_loss`: `pnl_percent <= threshold`. -/
def Position.should_stop_loss (p : Position) (threshold : ℚ := -15) : Bool :=
  p.pnl_percent ≤ threshold

/-- `Position.should_take_profit`: `pnl_percent >= threshold`. -/
def Position.should_take_profit (p : Position) (threshold : ℚ := 30) : Bool :=
  p.pnl_percent ≥ threshold

/-- The three exit actions returned (as strings) by
`MonitorService.check_position`. -/
inductive ExitAction
  | stop_loss
  | take_profit
  | hold
deriving DecidableEq, Repr

/-- `MonitorService.check_position` (`services/monitor/service.py`, lines
126–147): stop-loss first (`pnl_percent ≤ stop_loss_percent`), then
take-profit (`pnl_percent ≥ take_profit_percent`), else hold.  The returned
triple is `(should_sell, action, reason)`; the reason string is dropped here,
the action tag determines it. -/
def check_position (settings : Settings) (p : Position) : Bool × ExitAction :=
  if p.should_stop_loss settings.trading.sell_thresholds.stop_loss_percent then
    (true, .stop_loss)
  else if p.should_take_profit settings.trading.sell_thresholds.take_profit_percent then
    (true, .take_profit)
  else
    (false, .hold)

/-- **C5.** One exit evaluation returns exactly one action: `stop_loss` when
`pnl_percent ≤ stop_loss_percent` (checked first, inclusive), else
`take_profit` when `pnl_percent ≥ take_profit_percent` (inclusive), else
`hold`; a position satisfying both boundary conditions resolves to
`stop_loss`. -/
theorem check_position_spec (settings : Settings) (p : Position) :
    (p.pnl_percent ≤ settings.trading.sell_thresholds.stop_loss_percent →
      check_position settings p = (true, .stop_loss)) ∧
    (settings.trading.sell_thresholds.stop_loss_percent < p.pnl_percent →
      settings.trading.sell_thresholds.take_profit_percent ≤ p.pnl_percent →
      check_position settings p = (true, .take_profit)) ∧
    (settings.trading.sell_thresholds.stop_loss_percent < p.pnl_percent →
      p.pnl_percent < settings.trading.sell_thresholds.take_profit_percent →
      check_position settings p = (false, .hold)) := by
  refine ⟨?_, ?_, ?_⟩
  · intro h
    unfold check_position Position.should_stop_loss
    rw [if_pos (by simpa using h)]
  · intro hsl htp
    unfold check_position Position.should_stop_loss Position.should_take_profit
    rw [if_neg (by simpa using not_le.mpr hsl), if_pos (by simpa using htp)]
  · intro hsl htp
    unfold check_position Position.should_stop_loss Position.should_take_profit
    rw [if_neg (by simpa using not_le.mpr hsl), if_neg (by simpa using not_le.mpr htp)]

/-- Witness for C5: with the default thresholds (`stop_loss −15`,
`take_profit 30`), `pnl_percent = −15` yields `stop_loss` (inclusive
boundary), `pnl_percent = −14.9` yields `hold`, and with the misconfigured
thresholds `stop_loss = take_profit = 0` a position sitting on both
boundaries (`pnl_percent = 0`) resolves to `stop_loss`. -/
theorem check_position_spec_witness :
    check_position {}
      ⟨"p1", "m1", "", "Yes", 1/2, 1/2, 1, 1, 1, -15, TradingMode.fake⟩ =
      (true, .stop_loss) ∧
    check_position {}
      ⟨"p1", "m1", "", "Yes", 1/2, 1/2, 1, 1, 1, -149/10, TradingMode.fake⟩ =
      (false, .hold) ∧
    check_position { trading := { sell_thresholds := ⟨0, 0⟩ } }
      ⟨"p1", "m1", "", "Yes", 1/2, 1/2, 1, 1, 1, 0, TradingMode.fake⟩ =
      (true, .stop_loss) := by
  refine ⟨?_, ?_, ?_⟩
  · exact (check_position_spec {}
      ⟨"p1", "m1", "", "Yes", 1/2, 1/2, 1, 1, 1, -15, TradingMode.fake⟩).1 (by norm_num)
  · exact (check_position_spec {}
      ⟨"p1", "m1", "", "Yes", 1/2, 1/2, 1, 1, 1, -149/10, TradingMode.fake⟩).2.2
      (by norm_num) (by norm_num)
  · exact (check_position_spec { trading := { sell_thresholds := ⟨0, 0⟩ } }
      ⟨"p1", "m1", "", "Yes", 1/2, 1/2, 1, 1, 1, 0, TradingMode.fake⟩).1 (by norm_num)

/-- `MarketOutcome` from `shared/models.py`. -/
structure MarketOutcome where
  name : String
  price : ℚ
deriving DecidableEq, Repr

/-- `Market` from `shared/models.py` (`created_at` omitted).  `end_date` is a
UTC timestamp in seconds; the computed filter fields carry their Python
defaults (`time_to_resolution_hours = None`, `passes_filter = True`,
`filter_reason = None`). -/
structure Market where
  id : String
  question : String
  description : String := ""
  category : String := ""
  end_date : ℚ
  volume : ℚ := 0
  liquidity : ℚ := 0
  outcomes : List MarketOutcome := []
  time_to_resolution_hours : Option ℚ := none
  passes_filter : Bool := true
  filter_reason : Option String := none
deriving DecidableEq, Repr

/-- `Market.compute_time_to_resolution`: hours until resolution, `0` for past
deadlines.  `now` (the wall clock read by the Python code) is made an explicit
argument, in seconds. -/
def Market.compute_time_to_resolution (m : Market) (now : ℚ) : ℚ :=
  if m.end_date ≤ now then 0 else (m.end_date - now) / 3600

/-- `FilterResult` from `services/scraper/filters.py`.  The `market` field of
the dataclass aliases the (mutated) input market; here the updated market is
the second component and the reason string is kept verbatim apart from its
interpolated numbers, which the `reason` templates below summarise. -/
structure FilterResult where
  passed : Bool
  market : Market
  reason : Option String := none
deriving DecidableEq, Repr

/-- Reason templates of `MarketFilter` (`services/scraper/filters.py`), one
per failing check, in source order:
* `"Market has already ended"`
* `"Time to resolution ({t:.1f}h) exceeds maximum ({max}h)"`
* `"Market resolves too soon ({t*60:.0f} minutes)"`
* `"Volume (${v:,.0f}) below minimum (${min:,.0f})"`
* `"Liquidity (${l:,.0f}) below minimum (${min:,.0f})"`
* `"Category '{c}' is excluded"`
* `"All outcome prices are extreme (outside {min:.0%}-{max:.0%})"`
The interpolated numbers are dropped; each tag is rendered to a fixed string
so `Market.filter_reason : Option String` matches the model. -/
def reasonAlreadyEnded : String := "Market has already ended"
def reasonExceedsMax : String := "Time to resolution exceeds maximum"
def reasonTooSoon : String := "Market resolves too soon"
def reasonLowVolume : String := "Volume below minimum"
def reasonLowLiquidity : String := "Liquidity below minimum"
def reasonCategoryExcluded : String := "Category is excluded"
def reasonPricesExtreme : String := "All outcome prices are extreme"

/-- `MarketFilter._check_time_to_resolution`: computes and stores
`time_to_resolution_hours`, then rejects already-ended markets
(`t ≤ 0`), markets beyond `max_time_to_resolution_hours`, and markets
resolving within 5 minutes (`t < 5/60`). -/
def check_time_to_resolution (config : MarketFiltersConfig) (now : ℚ)
    (market : Market) : FilterResult :=
  let t := market.compute_time_to_resolution now
  let market := { market with time_to_resolution_hours := some t }
  if t ≤ 0 then
    let market := { market with passes_filter := false,
                                filter_reason := some reasonAlreadyEnded }
    ⟨false, market, some reasonAlreadyEnded⟩
  else if t > config.max_time_to_resolution_hours then
    let market := { market with passes_filter := false,
                                filter_reason := some reasonExceedsMax }
    ⟨false, market, some reasonExceedsMax⟩
  else if t < 5/60 then
    let market := { market with passes_filter := false,
                                filter_reason := some reasonTooSoon }
    ⟨false, market, some reasonTooSoon⟩
  else
    ⟨true, market, none⟩

/-- `MarketFilter._check_volume`. -/
def check_volume (config : MarketFiltersConfig) (market : Market) : FilterResult :=
  if market.volume < config.min_volume then
    let market := { market with passes_filter := false,
                                filter_reason := some reasonLowVolume }
    ⟨false, market, some reasonLowVolume⟩
  else
    ⟨true, market, none⟩

/-- `MarketFilter._check_liquidity`. -/
def check_liquidity (config : MarketFiltersConfig) (market : Market) : FilterResult :=
  if market.liquidity < config.min_liquidity then
    let market := { market with passes_filter := false,
                                filter_reason := some reasonLowLiquidity }
    ⟨false, market, some reasonLowLiquidity⟩
  else
    ⟨true, market, none⟩

/-- `MarketFilter._check_category`: case-insensitive membership of the
market's category in `excluded_categories`. -/
def check_category (config : MarketFiltersConfig) (market : Market) : FilterResult :=
  if (config.excluded_categories.map String.toLower).contains market.category.toLower then
    let market := { market with passes_filter := false,
                                filter_reason := some reasonCategoryExcluded }
    ⟨false, market, some reasonCategoryExcluded⟩
  else
    ⟨true, market, none⟩

/-- `MarketFilter._check_price_range`: walk the outcomes; skip an outcome
whose price is below `min_price` or above `max_price`; pass as soon as one
outcome is in band; fail only after all outcomes were skipped. -/
def price_range_loop (config : MarketFiltersConfig) : List MarketOutcome → Bool
  | [] => false
  | o :: rest =>
    if o.price < config.min_price ∨ o.price > config.max_price then
      price_range_loop config rest
    else
      true

/-- `MarketFilter._check_price_range` wrapped as the source method: on failure
the market is marked as filtered out. -/
def check_price_range (config : MarketFiltersConfig) (market : Market) : FilterResult :=
  if price_range_loop config market.outcomes then
    ⟨true, market, none⟩
  else
    let market := { market with passes_filter := false,
                                filter_reason := some reasonPricesExtreme }
    ⟨false, market, some reasonPricesExtreme⟩

/-- `MarketFilter.filter_market` (`services/scraper/filters.py`, lines
62–146): the ordered chain of checks; the first failing check's result is
returned; when all pass, the market is marked `passes_filter = True`,
`filter_reason = None`.  The debug-log writes in the source are I/O only and
not modelled. -/
def filter_market (config : MarketFiltersConfig) (now : ℚ) (market : Market) :
    FilterResult :=
  let time_check := check_time_to_resolution config now market
  if time_check.passed then
    let volume_check := check_volume config time_check.market
    if volume_check.passed then
      let liquidity_check := check_liquidity config volume_check.market
      if liquidity_check.passed then
        let category_check := check_category config liquidity_check.market
        if category_check.passed then
          let price_check := check_price_range config category_check.market
          if price_check.passed then
            let market := { price_check.market with passes_filter := true,
                                                    filter_reason := none }
            ⟨true, market, none⟩
          else price_check
        else category_check
      else liquidity_check
    else volume_check
  else time_check

/-- **C6.** The price-sanity check passes iff at least one outcome's price
lies within `[min_price, max_price]`; the market with outcomes
`{0.98, 0.02}` against band `[0.05, 0.95]` fails, and `{0.40, 0.60}`
passes. -/
theorem check_price_range_spec (config : MarketFiltersConfig) (market : Market) :
    ((check_price_range config market).passed = true ↔
      ∃ o ∈ market.outcomes, config.min_price ≤ o.price ∧ o.price ≤ config.max_price) ∧
    (check_price_range {}
      { id := "m-extreme", question := "", end_date := 0,
        outcomes := [⟨"Yes", 49/50⟩, ⟨"No", 1/50⟩] }).passed = false ∧
    (check_price_range {}
      { id := "m-mid", question := "", end_date := 0,
        outcomes := [⟨"Yes", 2/5⟩, ⟨"No", 3/5⟩] }).passed = true := by
  refine ⟨?_, by norm_num [check_price_range, price_range_loop],
    by norm_num [check_price_range, price_range_loop]⟩
  have key : ∀ os : List MarketOutcome, price_range_loop config os = true ↔
      ∃ o ∈ os, config.min_price ≤ o.price ∧ o.price ≤ config.max_price := by
    intro os
    induction os with
    | nil => simp [price_range_loop]
    | cons o rest ih =>
      unfold price_range_loop
      by_cases h : o.price < config.min_price ∨ o.price > config.max_price
      · rw [if_pos h, ih]
        constructor
        · rintro ⟨o', ho', hb⟩
          exact ⟨o', List.mem_cons_of_mem _ ho', hb⟩
        · rintro ⟨o', ho', hb⟩
          rcases List.mem_cons.mp ho' with rfl | ho'
          · rcases h with h | h
            · exact absurd hb.1 (not_le.mpr h)
            · exact absurd hb.2 (not_le.mpr h)
          · exact ⟨o', ho', hb⟩
      · rw [if_neg h]
        push_neg at h
        simp only [true_iff]
        exact ⟨o, List.mem_cons_self _ _, h.1, h.2⟩
  unfold check_price_range
  by_cases hp : price_range_loop config market.outcomes
  · rw [if_pos hp]
    simpa using (key market.outcomes).mp hp
  · rw [if_neg hp]
    simp only [Bool.false_eq_true, false_iff]
    intro hex
    exact hp ((key market.outcomes).mpr hex)

/-- A concrete already-ended market (deadline at time 0, filtered at
`now = 36000` seconds): the field defaults are `time_to_resolution_hours =
none`, `passes_filter = true`, `filter_reason = none`. -/
def endedMarket : Market :=
  { id := "m-ended", question := "q", end_date := 0 }

/-- **C8 counterexample.** Filtering is not a pure function of the market:
evaluating `filter_market` on `endedMarket` flips `passes_filter` from `true`
to `false`, sets `filter_reason`, and sets `time_to_resolution_hours` from
`none` to `some 0`, so the returned market differs from the input. -/
theorem filter_market_mutates :
    (filter_market {} 36000 endedMarket).market.passes_filter = false ∧
    endedMarket.passes_filter = true ∧
    (filter_market {} 36000 endedMarket).market.time_to_resolution_hours = some 0 ∧
    endedMarket.time_to_resolution_hours = none ∧
    (filter_market {} 36000 endedMarket).market ≠ endedMarket := by
  have h : (filter_market {} 36000 endedMarket).market.passes_filter = false := by
    norm_num [filter_market, check_time_to_resolution, Market.compute_time_to_resolution,
      endedMarket]
  refine ⟨h, rfl, ?_, rfl, ?_⟩
  · norm_num [filter_market, check_time_to_resolution, Market.compute_time_to_resolution,
      endedMarket]
  · intro hc
    rw [hc] at h
    exact absurd h (by norm_num [endedMarket])

lemma check_time_cases (config : MarketFiltersConfig) (now : ℚ) (m : Market) :
    check_time_to_resolution config now m =
      ⟨true,
       { m with time_to_resolution_hours := some (m.compute_time_to_resolution now) },
       none⟩ ∨
    (∃ r, check_time_to_resolution config now m =
      ⟨false,
       { m with time_to_resolution_hours := some (m.compute_time_to_resolution now),
                passes_filter := false, filter_reason := some r },
       some r⟩) := by
  unfold check_time_to_resolution
  dsimp only
  split_ifs
  · exact Or.inr ⟨reasonAlreadyEnded, rfl⟩
  · exact Or.inr ⟨reasonExceedsMax, rfl⟩
  · exact Or.inr ⟨reasonTooSoon, rfl⟩
  · exact Or.inl rfl

lemma check_volume_cases (config : MarketFiltersConfig) (m : Market) :
    check_volume config m = ⟨true, m, none⟩ ∨
    check_volume config m =
      ⟨false,
       { m with passes_filter := false, filter_reason := some reasonLowVolume },
       some reasonLowVolume⟩ := by
  unfold check_volume
  split_ifs
  · exact Or.inr rfl
  · exact Or.inl rfl

lemma check_liquidity_cases (config : MarketFiltersConfig) (m : Market) :
    check_liquidity config m = ⟨true, m, none⟩ ∨
    check_liquidity config m =
      ⟨false,
       { m with passes_filter := false, filter_reason := some reasonLowLiquidity },
       some reasonLowLiquidity⟩ := by
  unfold check_liquidity
  split_ifs
  · exact Or.inr rfl
  · exact Or.inl rfl

lemma check_category_cases (config : MarketFiltersConfig) (m : Market) :
    check_category config m = ⟨true, m, none⟩ ∨
    check_category config m =
      ⟨false,
       { m with passes_filter := false, filter_reason := some reasonCategoryExcluded },
       some reasonCategoryExcluded⟩ := by
  unfold check_category
  split_ifs
  · exact Or.inr rfl
  · exact Or.inl rfl

lemma check_price_range_cases (config : MarketFiltersConfig) (m : Market) :
    check_price_range config m = ⟨true, m, none⟩ ∨
    check_price_range config m =
      ⟨false,
       { m with passes_filter := false, filter_reason := some reasonPricesExtreme },
       some reasonPricesExtreme⟩ := by
  unfold check_price_range
  split_ifs
  · exact Or.inl rfl
  · exact Or.inr rfl

/-- **C8 amended.** `filter_market` returns a pass/fail flag and reason but
does write back onto the market: it always sets `time_to_resolution_hours`
to the freshly computed value, sets `passes_filter`/`filter_reason` to
`true`/`none` on a passing market and to `false`/the failing check's reason on
a failing one; every other field of the market is left unchanged. -/
theorem filter_market_frame (config : MarketFiltersConfig) (now : ℚ) (m : Market) :
    ((filter_market config now m).market.id = m.id ∧
     (filter_market config now m).market.question = m.question ∧
     (filter_market config now m).market.description = m.description ∧
     (filter_market config now m).market.category = m.category ∧
     (filter_market config now m).market.end_date = m.end_date ∧
     (filter_market config now m).market.volume = m.volume ∧
     (filter_market config now m).market.liquidity = m.liquidity ∧
     (filter_market config now m).market.outcomes = m.outcomes) ∧
    (filter_market config now m).market.time_to_resolution_hours =
      some (m.compute_time_to_resolution now) ∧
    ((filter_market config now m).passed = true →
      (filter_market config now m).market.passes_filter = true ∧
      (filter_market config now m).market.filter_reason = none) ∧
    ((filter_market config now m).passed = false →
      (filter_market config now m).market.passes_filter = false ∧
      (filter_market config now m).market.filter_reason = (filter_market config now m).reason) := by
  unfold filter_market
  rcases check_time_cases config now m with ht | ⟨r, ht⟩
  · rw [ht]
    dsimp only
    rcases check_volume_cases config
        { m with time_to_resolution_hours := some (m.compute_time_to_resolution now) }
      with hv | hv
    · rw [hv]
      dsimp only
      rcases check_liquidity_cases config
          { m with time_to_resolution_hours := some (m.compute_time_to_resolution now) }
        with hl | hl
      · rw [hl]
        dsimp only
        rcases check_category_cases config
            { m with time_to_resolution_hours := some (m.compute_time_to_resolution now) }
          with hc | hc
        · rw [hc]
          dsimp only
          rcases check_price_range_cases config
              { m with time_to_resolution_hours := some (m.compute_time_to_resolution now) }
            with hp | hp
          · rw [hp]
            simp
          · rw [hp]
            simp
        · rw [hc]
          simp
      · rw [hl]
        simp
    · rw [hv]
      simp
  · rw [ht]
    simp

/-- Witness for C8 amended, at a concrete passing market (no excluded
categories configured): an in-band market half an hour from resolution keeps
its identity fields and ends up marked `passes_filter = true`. -/
theorem filter_market_frame_witness :
    (filter_market { excluded_categories := [] } 0
      { id := "m-ok", question := "q", category := "politics", end_date := 1800,
        volume := 5000, liquidity := 800,
        outcomes := [⟨"Yes", 2/5⟩, ⟨"No", 3/5⟩] }).market.volume = 5000 ∧
    (filter_market { excluded_categories := [] } 0
      { id := "m-ok", question := "q", category := "politics", end_date := 1800,
        volume := 5000, liquidity := 800,
        outcomes := [⟨"Yes", 2/5⟩, ⟨"No", 3/5⟩] }).market.passes_filter = true := by
  have h := filter_market_frame { excluded_categories := [] } 0
      { id := "m-ok", question := "q", category := "politics", end_date := 1800,
        volume := 5000, liquidity := 800,
        outcomes := [⟨"Yes", 2/5⟩, ⟨"No", 3/5⟩] }
  refine ⟨h.1.2.2.2.2.2.1, (h.2.2.1 ?_).1⟩
  norm_num [filter_market, check_time_to_resolution, check_volume, check_liquidity,
    check_category, check_price_range, price_range_loop, Market.compute_time_to_resolution]

/-- `Order` from `shared/models.py` (timestamps omitted). -/
structure Order where
  id : String := ""
  market_id : String
  outcome : String
  side : OrderSide
  price : ℚ
  quantity : ℚ
  total_value : ℚ
  status : OrderStatus := OrderStatus.pending
  mode : TradingMode := TradingMode.fake
  error_message : Option String := none
deriving DecidableEq, Repr

/-- `Transaction` from `shared/models.py` (timestamps omitted). -/
structure Transaction where
  id : String
  wallet_id : String
  type : TransactionType
  amount : ℚ
  balance_before : ℚ
  balance_after : ℚ
  reference_id : Option String := none
  description : String := ""
deriving DecidableEq, Repr

/-- The paper-trading ledger persisted in Firestore (`fake_wallets`,
`fake_positions`, `fake_transactions` collections of
`shared/firestore_client.py`): the "default" wallet, the open positions and
the transaction log.  `next_uuid` models `uuid4()` id generation as a
counter. -/
structure LedgerState where
  wallet : Wallet
  positions : List Position := []
  transactions : List Transaction := []
  next_uuid : ℕ := 0
deriving DecidableEq, Repr

/-- The fake-money branch of `TraderService.place_buy_order`
(`services/trader/service.py`, lines 124–247).  Real-money orders delegate to
the external Polymarket client (out of scope per spec §6) and touch no ledger
state.  In sequence: `quantity = amount / price` (0 if `price ≤ 0`); if the
wallet cannot afford `amount`, a `failed` order and no mutation; the dead
second guard on `wallet.deduct` is kept from the source; otherwise debit the
wallet, persist it, append a `buy` transaction, create the position with
`entry = current = price`, and return a `filled` order. -/
def place_buy_order (st : LedgerState) (market_id outcome : String)
    (amount price : ℚ) : Order × LedgerState :=
  let quantity := if price > 0 then amount / price else 0
  let wallet := st.wallet
  let balance_before := wallet.balance
  if ¬ wallet.can_afford amount then
    ({ market_id := market_id, outcome := outcome, side := OrderSide.buy,
       price := price, quantity := quantity, total_value := amount,
       status := OrderStatus.failed, mode := TradingMode.fake,
       error_message := some "Insufficient balance" }, st)
  else
    let deducted := wallet.deduct amount
    if ¬ deducted.1 then
      ({ market_id := market_id, outcome := outcome, side := OrderSide.buy,
         price := price, quantity := quantity, total_value := amount,
         status := OrderStatus.failed, mode := TradingMode.fake,
         error_message := some "Failed to deduct from wallet" }, st)
    else
      let wallet := deducted.2
      let tx : Transaction :=
        { id := toString st.next_uuid, wallet_id := "default",
          type := TransactionType.buy, amount := amount,
          balance_before := balance_before, balance_after := wallet.balance,
          reference_id := some ("order-" ++ market_id),
          description := "Buy " ++ outcome ++ " on " ++ market_id }
      let position : Position :=
        { id := toString (st.next_uuid + 1), market_id := market_id,
          outcome := outcome, entry_price := price, current_price := price,
          quantity := quantity, entry_value := amount, current_value := amount,
          mode := TradingMode.fake }
      let st' : LedgerState :=
        { wallet := wallet,
          positions := st.positions ++ [position],
          transactions := st.transactions ++ [tx],
          next_uuid := st.next_uuid + 2 }
      ({ id := "order-" ++ position.id, market_id := market_id,
         outcome := outcome, side := OrderSide.buy, price := price,
         quantity := quantity, total_value := amount,
         status := OrderStatus.filled, mode := TradingMode.fake }, st')

/-- The fake-money branch of `TraderService.place_sell_order`
(`services/trader/service.py`, lines 249–327).  Uses the position's
`current_price` when no explicit price is given; `proceeds = price ×
quantity`; credits the wallet, appends a `sell` transaction, deletes the
position, returns a `filled` order. -/
def place_sell_order (st : LedgerState) (position : Position)
    (price? : Option ℚ := none) : Order × LedgerState :=
  let price := price?.getD position.current_price
  let proceeds := price * position.quantity
  let wallet := st.wallet
  let balance_before := wallet.balance
  let wallet := wallet.add proceeds
  let tx : Transaction :=
    { id := toString st.next_uuid, wallet_id := "default",
      type := TransactionType.sell, amount := proceeds,
      balance_before := balance_before, balance_after := wallet.balance,
      reference_id := some position.id,
      description := "Sell " ++ position.outcome ++ " on " ++ position.market_id }
  let st' : LedgerState :=
    { wallet := wallet,
      positions := st.positions.filter (fun p => p.id ≠ position.id),
      transactions := st.transactions ++ [tx],
      next_uuid := st.next_uuid + 1 }
  ({ id := "order-sell-" ++ position.id, market_id := position.market_id,
     outcome := position.outcome, side := OrderSide.sell, price := price,
     quantity := position.quantity, total_value := proceeds,
     status := OrderStatus.filled, mode := position.mode }, st')

/-- `TraderService.execute_suggestion` (`services/trader/service.py`, lines
329–365), fake-money path: the price is the hard-coded default `0.5`
("should be fetched from market" per the source comment), passed straight to
`place_buy_order`. -/
def execute_suggestion (st : LedgerState) (suggestion : AISuggestion)
    (position_size : ℚ) : Order × LedgerState :=
  place_buy_order st suggestion.market_id suggestion.recommended_outcome
    position_size (1/2)

lemma can_afford_true (st : LedgerState) (amount : ℚ)
    (ha : amount ≤ st.wallet.balance) : st.wallet.can_afford amount = true := by
  simp [Wallet.can_afford, ge_iff_le, ha]

lemma deduct_affordable (st : LedgerState) (amount : ℚ)
    (ha : amount ≤ st.wallet.balance) :
    st.wallet.deduct amount =
      (true, { st.wallet with balance := st.wallet.balance - amount }) := by
  unfold Wallet.deduct
  rw [if_pos (can_afford_true st amount ha)]

/-- An affordable fake-money buy at a positive price fills: the order, the
debited wallet, the appended `buy` transaction and the created position, all
explicit. -/
lemma place_buy_order_affordable (st : LedgerState) (market_id outcome : String)
    (amount price : ℚ) (hp : 0 < price) (ha : amount ≤ st.wallet.balance) :
    place_buy_order st market_id outcome amount price =
      ({ id := "order-" ++ toString (st.next_uuid + 1), market_id := market_id,
         outcome := outcome, side := OrderSide.buy, price := price,
         quantity := amount / price, total_value := amount,
         status := OrderStatus.filled, mode := TradingMode.fake,
         error_message := none },
       { wallet := { st.wallet with balance := st.wallet.balance - amount },
         positions := st.positions ++
           [{ id := toString (st.next_uuid + 1), market_id := market_id,
              outcome := outcome, entry_price := price, current_price := price,
              quantity := amount / price, entry_value := amount,
              current_value := amount, mode := TradingMode.fake }],
         transactions := st.transactions ++
           [{ id := toString st.next_uuid, wallet_id := "default",
              type := TransactionType.buy, amount := amount,
              balance_before := st.wallet.balance,
              balance_after := st.wallet.balance - amount,
              reference_id := some ("order-" ++ market_id),
              description := "Buy " ++ outcome ++ " on " ++ market_id }],
         next_uuid := st.next_uuid + 2 }) := by
  unfold place_buy_order
  dsimp only
  rw [can_afford_true st amount ha, deduct_affordable st amount ha]
  simp only [if_pos hp]
  norm_num

/-- **C2.** Paper-mode round trip: with `price > 0` and
`amount ≤ wallet balance`, a buy of `amount` at `price` debits exactly
`amount` and creates a position with `quantity = amount / price`; selling
that position at the same price credits `price × quantity = amount`, leaving
the wallet balance exactly unchanged. -/
theorem buy_sell_round_trip (st : LedgerState) (market_id outcome : String)
    (amount price : ℚ) (hp : 0 < price) (ha : amount ≤ st.wallet.balance) :
    ((place_buy_order st market_id outcome amount price).2.wallet.balance =
      st.wallet.balance - amount) ∧
    ∃ pos : Position,
      (place_buy_order st market_id outcome amount price).2.positions =
        st.positions ++ [pos] ∧
      pos.quantity = amount / price ∧
      (place_sell_order (place_buy_order st market_id outcome amount price).2
        pos (some price)).1.total_value = amount ∧
      (place_sell_order (place_buy_order st market_id outcome amount price).2
        pos (some price)).2.wallet.balance = st.wallet.balance := by
  rw [place_buy_order_affordable st market_id outcome amount price hp ha]
  have hq : price * (amount / price) = amount := by
    rw [mul_comm]
    exact div_mul_cancel₀ amount (ne_of_gt hp)
  refine ⟨rfl, ⟨_, rfl, rfl, ?_, ?_⟩⟩
  · simp only [place_sell_order, Option.getD_some]
    exact hq
  · simp only [place_sell_order, Option.getD_some, Wallet.add]
    rw [hq]
    ring

/-- Witness for C2: wallet balance `100`, buy `40` at price `0.8`: the buy
leaves balance `60` and a position of `50` shares; selling it back at `0.8`
restores balance `100`. -/
theorem buy_sell_round_trip_witness :
    ((place_buy_order { wallet := Wallet.mk "default" 100 "USDC" } "m1" "Yes"
        40 (4/5)).2.wallet.balance = 60) ∧
    ∃ pos : Position,
      (place_buy_order { wallet := Wallet.mk "default" 100 "USDC" } "m1" "Yes"
          40 (4/5)).2.positions = [] ++ [pos] ∧
      pos.quantity = 50 ∧
      (place_sell_order (place_buy_order { wallet := Wallet.mk "default" 100 "USDC" }
          "m1" "Yes" 40 (4/5)).2 pos (some (4/5))).2.wallet.balance = 100 := by
  have h := buy_sell_round_trip { wallet := Wallet.mk "default" 100 "USDC" }
      "m1" "Yes" 40 (4/5) (by norm_num) (by norm_num)
  obtain ⟨h1, pos, h2, h3, _h4, h5⟩ := h
  refine ⟨by rw [h1]; norm_num, pos, h2, by rw [h3]; norm_num, by rw [h5]⟩

/-- **C10.** Every buy the DiscoveryPipeline executes goes through
`execute_suggestion`, which hard-codes the price `0.5` regardless of the
market's actual outcome prices; so (paper mode, affordable size) the opened
position has `entry_price = current_price = 0.5` and
`quantity = size / 0.5 = 2 × size`, and the order records the same price and
quantity. -/
theorem execute_suggestion_half_price (st : LedgerState)
    (suggestion : AISuggestion) (position_size : ℚ)
    (ha : position_size ≤ st.wallet.balance) :
    (execute_suggestion st suggestion position_size).1.price = 1/2 ∧
    (execute_suggestion st suggestion position_size).1.quantity =
      2 * position_size ∧
    ∃ pos : Position,
      (execute_suggestion st suggestion position_size).2.positions =
        st.positions ++ [pos] ∧
      pos.entry_price = 1/2 ∧ pos.current_price = 1/2 ∧
      pos.quantity = 2 * position_size := by
  unfold execute_suggestion
  rw [place_buy_order_affordable st suggestion.market_id
    suggestion.recommended_outcome position_size (1/2) (by norm_num) ha]
  have hq : position_size / (1/2 : ℚ) = 2 * position_size := by
    field_simp
    ring
  exact ⟨rfl, by simpa using hq, _, rfl, rfl, rfl, by simpa using hq⟩

/-- Witness for C10: size `20` on a `1000`-balance ledger opens a position of
`40` shares at entry and current price `0.5`. -/
theorem execute_suggestion_half_price_witness :
    (execute_suggestion { wallet := Wallet.mk "default" 1000 "USDC" }
      ⟨"m9", "", "Yes", 9/10, "", 1/10, RiskLevel.medium⟩ 20).1.price = 1/2 ∧
    (execute_suggestion { wallet := Wallet.mk "default" 1000 "USDC" }
      ⟨"m9", "", "Yes", 9/10, "", 1/10, RiskLevel.medium⟩ 20).1.quantity = 40 := by
  have h := execute_suggestion_half_price { wallet := Wallet.mk "default" 1000 "USDC" }
      ⟨"m9", "", "Yes", 9/10, "", 1/10, RiskLevel.medium⟩ 20 (by norm_num)
  exact ⟨h.1, by rw [h.2.1]; norm_num⟩

/-- Outcome tag of `TraderService.can_trade` (`services/trader/service.py`,
lines 79–122).  Each constructor stands for the exact literal the source
returns:
* `realMoneyDisabled` — `"Real money trading is disabled"`
* `fakeMoneyDisabled` — `"Fake money trading is disabled"`
* `balanceBelowMinimum b m` — `"Balance ${b:.2f} is below minimum ${m:.2f}"`
* `insufficientBalance b a` — `"Insufficient balance: ${b:.2f} < ${a:.2f}"`
* `exceedsMaxBet a m` — `"Amount ${a:.2f} exceeds max bet ${m:.2f}"`
* `maxPositionsReached n` — `"Maximum positions ({n}) reached"`
* `ok` — `"OK"` -/
inductive CanTradeReason
  | realMoneyDisabled
  | fakeMoneyDisabled
  | balanceBelowMinimum (balance min_balance : ℚ)
  | insufficientBalance (balance amount : ℚ)
  | exceedsMaxBet (amount max_bet : ℚ)
  | maxPositionsReached (max_positions : ℕ)
  | ok
deriving DecidableEq, Repr

/-- Whether a `can_trade` reason's source literal contains the substring
`"minimum"` (case-sensitive).  Only the below-minimum-balance literal
`"Balance $... is below minimum $..."` does; note `"Maximum positions (...)
reached"` contains only the capitalised `"Maximum"`. -/
def CanTradeReason.mentionsMinimum : CanTradeReason → Bool
  | .balanceBelowMinimum _ _ => true
  | _ => false

/-- `TraderService.can_trade` (`services/trader/service.py`, lines 79–122).
`balance` is the value `get_balance(mode)` returned (Polymarket for real,
the Firestore wallet for fake) and `open_positions` the number of open
positions `get_open_positions(mode)` returned; both reads are external and
passed in.  Checks, in source order: mode enabled; balance against
`min_balance_to_trade`; balance against the requested amount; amount against
`max_bet_amount`; for fake mode, open position count against
`max_positions`. -/
def can_trade (settings : Settings) (mode : TradingMode) (amount : ℚ)
    (balance : ℚ) (open_positions : ℕ) : Bool × CanTradeReason :=
  if mode = TradingMode.real ∧ ¬ settings.real_money_enabled then
    (false, .realMoneyDisabled)
  else if mode = TradingMode.fake ∧ ¬ settings.fake_money_enabled then
    (false, .fakeMoneyDisabled)
  else if balance < settings.trading.min_balance_to_trade then
    (false, .balanceBelowMinimum balance settings.trading.min_balance_to_trade)
  else if balance < amount then
    (false, .insufficientBalance balance amount)
  else if amount > settings.trading.max_bet_amount then
    (false, .exceedsMaxBet amount settings.trading.max_bet_amount)
  else if mode = TradingMode.fake ∧ open_positions ≥ settings.trading.max_positions then
    (false, .maxPositionsReached settings.trading.max_positions)
  else
    (true, .ok)

/-- Whether `mode`'s trading is enabled by `settings` (the first two guards
of `can_trade`). -/
def modeEnabled (settings : Settings) : TradingMode → Bool
  | .real => settings.real_money_enabled
  | .fake => settings.fake_money_enabled

/-- **C4 counterexample.** The claim says `CanTrade` returns false *exactly*
when the mode is disabled, the balance is below `min_balance_to_trade`, the
amount exceeds the balance, or (fake mode) open positions have reached
`max_positions`.  With default settings (fake enabled, `min_balance 10`,
`max_bet_amount 50`, `max_positions 10`), balance `100`, amount `60`, `0`
open positions, none of those four conditions holds, yet `can_trade` returns
false (the source has a fifth check, `amount > max_bet_amount`). -/
theorem can_trade_counterexample :
    (can_trade {} TradingMode.fake 60 100 0).1 = false ∧
    modeEnabled {} TradingMode.fake = true ∧
    ¬ ((100 : ℚ) < ({} : Settings).trading.min_balance_to_trade) ∧
    ¬ ((100 : ℚ) < (60 : ℚ)) ∧
    ¬ ((0 : ℕ) ≥ ({} : Settings).trading.max_positions) := by
  refine ⟨?_, rfl, by norm_num, by norm_num, by norm_num⟩
  norm_num [can_trade]
  decide

/-- **C4 amended.** `can_trade(mode, amount)` returns false exactly when: the
mode is disabled by configuration, or balance < `min_balance_to_trade`, or
`amount` > balance, or `amount` > `max_bet_amount`, or (fake mode only) the
number of open positions ≥ `max_positions`; checked in that order, the first
failing check's reason is returned, and when none holds it returns true.
With balance `5` and `min_balance_to_trade 10` it returns false with a reason
whose literal contains "minimum". -/
theorem can_trade_spec (settings : Settings) (mode : TradingMode) (amount
    balance : ℚ) (open_positions : ℕ) :
    (modeEnabled settings mode = false →
      (can_trade settings mode amount balance open_positions).1 = false) ∧
    (modeEnabled settings mode = true →
      balance < settings.trading.min_balance_to_trade →
      can_trade settings mode amount balance open_positions =
        (false, .balanceBelowMinimum balance settings.trading.min_balance_to_trade) ∧
      (can_trade settings mode amount balance open_positions).2.mentionsMinimum = true) ∧
    (modeEnabled settings mode = true →
      settings.trading.min_balance_to_trade ≤ balance → balance < amount →
      can_trade settings mode amount balance open_positions =
        (false, .insufficientBalance balance amount)) ∧
    (modeEnabled settings mode = true →
      settings.trading.min_balance_to_trade ≤ balance → amount ≤ balance →
      settings.trading.max_bet_amount < amount →
      can_trade settings mode amount balance open_positions =
        (false, .exceedsMaxBet amount settings.trading.max_bet_amount)) ∧
    (mode = TradingMode.fake → modeEnabled settings mode = true →
      settings.trading.min_balance_to_trade ≤ balance → amount ≤ balance →
      amount ≤ settings.trading.max_bet_amount →
      settings.trading.max_positions ≤ open_positions →
      can_trade settings mode amount balance open_positions =
        (false, .maxPositionsReached settings.trading.max_positions)) ∧
    (modeEnabled settings mode = true →
      settings.trading.min_balance_to_trade ≤ balance → amount ≤ balance →
      amount ≤ settings.trading.max_bet_amount →
      (mode = TradingMode.fake → open_positions < settings.trading.max_positions) →
      can_trade settings mode amount balance open_positions = (true, .ok)) := by
  have henabled : ∀ (h : modeEnabled settings mode = true),
      ¬ (mode = TradingMode.real ∧ ¬ settings.real_money_enabled) ∧
      ¬ (mode = TradingMode.fake ∧ ¬ settings.fake_money_enabled) := by
    intro h
    cases mode <;> simp_all [modeEnabled]
  refine ⟨?_, ?_, ?_, ?_, ?_, ?_⟩
  · intro h
    cases mode <;>
      simp_all [can_trade, modeEnabled]
  · intro h hb
    obtain ⟨h1, h2⟩ := henabled h
    unfold can_trade
    rw [if_neg h1, if_neg h2, if_pos hb]
    exact ⟨rfl, rfl⟩
  · intro h hb ha
    obtain ⟨h1, h2⟩ := henabled h
    unfold can_trade
    rw [if_neg h1, if_neg h2, if_neg (not_lt.mpr hb), if_pos ha]
  · intro h hb ha hm
    obtain ⟨h1, h2⟩ := henabled h
    unfold can_trade
    rw [if_neg h1, if_neg h2, if_neg (not_lt.mpr hb), if_neg (not_lt.mpr ha),
      if_pos hm]
  · intro hmode h hb ha hm hp
    obtain ⟨h1, h2⟩ := henabled h
    unfold can_trade
    rw [if_neg h1, if_neg h2, if_neg (not_lt.mpr hb), if_neg (not_lt.mpr ha),
      if_neg (not_lt.mpr hm), if_pos ⟨hmode, hp⟩]
  · intro h hb ha hm hp
    obtain ⟨h1, h2⟩ := henabled h
    unfold can_trade
    rw [if_neg h1, if_neg h2, if_neg (not_lt.mpr hb), if_neg (not_lt.mpr ha),
      if_neg (not_lt.mpr hm), if_neg]
    rintro ⟨hmode, hcount⟩
    exact absurd (hp hmode) (not_lt.mpr hcount)

/-- Witness for C4 amended: the spec's scenario — default settings, fake
mode, balance `5`, `min_balance_to_trade 10` — yields false with a reason
whose literal contains "minimum". -/
theorem can_trade_spec_witness :
    (can_trade {} TradingMode.fake 10 5 0).1 = false ∧
    (can_trade {} TradingMode.fake 10 5 0).2.mentionsMinimum = true := by
  have h := (can_trade_spec {} TradingMode.fake 10 5 0).2.1 rfl (by norm_num)
  exact ⟨by rw [h.1], h.2⟩

/-- `WorkflowState` from `shared/models.py` (timestamps omitted; `last_run` /
`next_run` kept as abstract optional timestamps in seconds). -/
structure WorkflowState where
  workflow_id : String
  mode : TradingMode
  enabled : Bool := false
  last_run : Option ℚ := none
  next_run : Option ℚ := none
  run_count : ℕ := 0
  last_error : Option String := none
deriving DecidableEq, Repr

/-- The `workflow_state` Firestore collection, keyed by
`f"{workflow_id}_{mode.value}"` (`shared/firestore_client.py`), modelled as a
map from that key. -/
def WorkflowStore := String × TradingMode → Option WorkflowState

/-- `FirestoreClient.get_workflow_state`: read by key. -/
def get_workflow_state (store : WorkflowStore) (workflow_id : String)
    (mode : TradingMode) : Option WorkflowState :=
  store (workflow_id, mode)

/-- `FirestoreClient.update_workflow_state`: persist the state under its own
key and return it. -/
def update_workflow_state (store : WorkflowStore) (state : WorkflowState) :
    WorkflowStore × WorkflowState :=
  (fun k => if k = (state.workflow_id, state.mode) then some state else store k,
   state)

/-- `FirestoreClient.toggle_workflow` (`shared/firestore_client.py`, lines
464–492): read the state; when absent, construct a fresh `WorkflowState` with
`enabled` set to the *requested* value (the other fields at their model
defaults); when present, set its `enabled` flag to the requested value; then
persist and return it. -/
def toggle_workflow (store : WorkflowStore) (workflow_id : String)
    (mode : TradingMode) (enabled : Bool) : WorkflowStore × WorkflowState :=
  let state :=
    match get_workflow_state store workflow_id mode with
    | none => { workflow_id := workflow_id, mode := mode, enabled := enabled }
    | some s => { s with enabled := enabled }
  update_workflow_state store state

/-- The empty workflow-state collection. -/
def emptyWorkflowStore : WorkflowStore := fun _ => none

/-- **C9 counterexample.** The claim says `Toggle` creates the state
default-disabled (`enabled = false`) when none exists.  On an empty store,
`toggle_workflow "discovery" fake true` returns (and persists) a state with
`enabled = true`, not `false` — the source passes the requested flag to the
constructor (and its unit test asserts `state.enabled is True` in exactly
this case). -/
theorem toggle_workflow_counterexample :
    (toggle_workflow emptyWorkflowStore "discovery" TradingMode.fake true).2.enabled
      = true := by
  rfl

/-- **C9 amended.** For every store, workflow id, mode and requested flag:
when no state exists for that key, `toggle_workflow` creates a fresh
`WorkflowState` whose `enabled` equals the *requested* value (other fields at
their defaults: `run_count = 0`, no last run, no error); when a state exists,
it sets that state's `enabled` flag to the requested value; in both cases the
resulting state is persisted under the `(workflow_id, mode)` key and
returned. -/
theorem toggle_workflow_spec (store : WorkflowStore) (workflow_id : String)
    (mode : TradingMode) (enabled : Bool) :
    ((toggle_workflow store workflow_id mode enabled).2.enabled = enabled) ∧
    (get_workflow_state store workflow_id mode = none →
      (toggle_workflow store workflow_id mode enabled).2 =
        { workflow_id := workflow_id, mode := mode, enabled := enabled }) ∧
    (∀ s, get_workflow_state store workflow_id mode = some s →
      (toggle_workflow store workflow_id mode enabled).2 =
        { s with enabled := enabled }) ∧
    (get_workflow_state store workflow_id mode = none →
      (toggle_workflow store workflow_id mode enabled).1 (workflow_id, mode) =
        some (toggle_workflow store workflow_id mode enabled).2) ∧
    (∀ s, get_workflow_state store workflow_id mode = some s →
      s.workflow_id = workflow_id → s.mode = mode →
      (toggle_workflow store workflow_id mode enabled).1 (workflow_id, mode) =
        some (toggle_workflow store workflow_id mode enabled).2) := by
  refine ⟨?_, ?_, ?_, ?_, ?_⟩
  · unfold toggle_workflow update_workflow_state
    cases h : get_workflow_state store workflow_id mode <;> simp [h]
  · intro h
    unfold toggle_workflow update_workflow_state
    rw [h]
  · intro s h
    unfold toggle_workflow update_workflow_state
    rw [h]
  · intro h
    unfold toggle_workflow update_workflow_state
    rw [h]
    simp
  · intro s h hid hmode
    unfold toggle_workflow update_workflow_state
    rw [h]
    simp [hid, hmode]

/-- Witness for C9 amended: toggling an absent `("monitor", fake)` entry to
`false` creates it default-shaped with `enabled = false` and persists it;
re-toggling the persisted entry to `true` flips just the flag. -/
theorem toggle_workflow_spec_witness :
    (toggle_workflow emptyWorkflowStore "monitor" TradingMode.fake false).2 =
      { workflow_id := "monitor", mode := TradingMode.fake, enabled := false } ∧
    (toggle_workflow
      (toggle_workflow emptyWorkflowStore "monitor" TradingMode.fake false).1
      "monitor" TradingMode.fake true).2 =
      { workflow_id := "monitor", mode := TradingMode.fake, enabled := true } := by
  have h1 := (toggle_workflow_spec emptyWorkflowStore "monitor"
      TradingMode.fake false).2.1 rfl
  refine ⟨h1, ?_⟩
  have h2 := (toggle_workflow_spec
      (toggle_workflow emptyWorkflowStore "monitor" TradingMode.fake false).1
      "monitor" TradingMode.fake true).2.2.1
      ((toggle_workflow emptyWorkflowStore "monitor" TradingMode.fake false).2)
      (by rfl)
  rw [h2, h1]

/-- Outcome of one `trader.execute_suggestion` call as observed by the
`DiscoveryWorkflow.run` loop: either an exception (caught and recorded) or a
returned `Order`.  The loop never reads the ledger inside an iteration, so
the call is abstracted as an oracle from suggestion and size. -/
inductive BuyOutcome
  | exn (msg : String)
  | ord (order : Order)
deriving DecidableEq, Repr

/-- The loop-local accumulator of `DiscoveryWorkflow.run` step 4: the running
`balance`, `orders_placed` and `errors`. -/
structure LoopState where
  balance : ℚ
  orders_placed : ℕ
  errors : List String
deriving DecidableEq, Repr

/-- One iteration of the `DiscoveryWorkflow.run` suggestion loop
(`services/orchestrator/workflows.py`, lines 117–141): gate with
`should_trade(suggestion, wallet_balance=balance)` (default
`max_position_percent = 0.1`); skip on rejection; on an exception record the
error; on a returned order with status `filled` or `pending`, bump
`orders_placed` and decrement the running balance by the gate's size; any
other status changes nothing. -/
def discovery_step (settings : Settings) (exec : AISuggestion → ℚ → BuyOutcome)
    (st : LoopState) (suggestion : AISuggestion) : LoopState :=
  let gate := should_trade settings suggestion st.balance
  if gate.1 then
    match exec suggestion gate.2.2 with
    | .exn msg => { st with errors := st.errors ++ [msg] }
    | .ord order =>
      if order.status = OrderStatus.filled ∨ order.status = OrderStatus.pending then
        { st with orders_placed := st.orders_placed + 1,
                  balance := st.balance - gate.2.2 }
      else st
  else st

/-- The amount one loop iteration deducts from the running balance: the
gate's computed size when the gate accepts and the order comes back
`filled`/`pending`, `0` otherwise (rejection, exception, or failed order). -/
def step_deduction (settings : Settings) (exec : AISuggestion → ℚ → BuyOutcome)
    (balance : ℚ) (suggestion : AISuggestion) : ℚ :=
  let gate := should_trade settings suggestion balance
  if gate.1 then
    match exec suggestion gate.2.2 with
    | .exn _ => 0
    | .ord order =>
      if order.status = OrderStatus.filled ∨ order.status = OrderStatus.pending then
        gate.2.2
      else 0
  else 0

/-- The per-iteration deductions of the whole loop, threading the running
balance exactly as the loop does. -/
def loop_deductions (settings : Settings) (exec : AISuggestion → ℚ → BuyOutcome) :
    List AISuggestion → ℚ → List ℚ
  | [], _ => []
  | s :: rest, balance =>
    let d := step_deduction settings exec balance s
    d :: loop_deductions settings exec rest (balance - d)

/-- `DiscoveryWorkflow.run` step 4: the ledger balance is read once
(`get_balance(mode)`) before the loop; the loop then folds over
`suggestions[:max_positions]` starting from that single read, with
`orders_placed = 0` and no errors. -/
def discovery_execute_loop (settings : Settings)
    (exec : AISuggestion → ℚ → BuyOutcome) (suggestions : List AISuggestion)
    (balance0 : ℚ) : LoopState :=
  (suggestions.take settings.trading.max_positions).foldl
    (discovery_step settings exec) ⟨balance0, 0, []⟩

lemma loop_deductions_length (settings : Settings)
    (exec : AISuggestion → ℚ → BuyOutcome) :
    ∀ (l : List AISuggestion) (b : ℚ),
      (loop_deductions settings exec l b).length = l.length := by
  intro l
  induction l with
  | nil => intro b; rfl
  | cons s rest ih =>
    intro b
    rw [loop_deductions]
    simp [ih]

lemma discovery_step_balance (settings : Settings)
    (exec : AISuggestion → ℚ → BuyOutcome) (st : LoopState) (s : AISuggestion) :
    (discovery_step settings exec st s).balance =
      st.balance - step_deduction settings exec st.balance s := by
  unfold discovery_step step_deduction
  dsimp only
  split_ifs with hgate
  · cases h : exec s (should_trade settings s st.balance).2.2 with
    | exn msg => simp
    | ord order =>
      dsimp only
      split_ifs with hstat
      · rfl
      · simp
  · simp

lemma foldl_take_balance (settings : Settings)
    (exec : AISuggestion → ℚ → BuyOutcome) :
    ∀ (l : List AISuggestion) (st : LoopState) (k : ℕ),
      ((l.take k).foldl (discovery_step settings exec) st).balance =
        st.balance - ((loop_deductions settings exec l st.balance).take k).sum := by
  intro l
  induction l with
  | nil => intro st k; simp [loop_deductions]
  | cons s rest ih =>
    intro st k
    cases k with
    | zero => simp
    | succ k =>
      rw [List.take_succ_cons, List.foldl_cons]
      rw [ih (discovery_step settings exec st s) k]
      rw [discovery_step_balance]
      rw [loop_deductions]
      rw [List.take_succ_cons, List.sum_cons]
      ring

/-- **C7.** In one DiscoveryPipeline run the ledger balance feeding the loop
is the single pre-loop read `balance0`; the loop is a fold over
`suggestions[:max_positions]` of `discovery_step`, whose gate and size use
the folded state's running balance and never a fresh ledger read.  The
balance at the start of iteration `k` (hence the one gating/sizing the
`(k+1)`-th suggestion) equals `balance0` minus the sum of the deductions of
the earlier iterations, where an iteration's deduction is the gate's size
exactly when its order came back `filled` or `pending` and `0` for a
gate-rejected suggestion, an exception, or any other order status. -/
theorem discovery_running_balance_spec (settings : Settings)
    (exec : AISuggestion → ℚ → BuyOutcome) (suggestions : List AISuggestion)
    (balance0 : ℚ) :
    (∀ k, ((suggestions.take settings.trading.max_positions).take k |>.foldl
        (discovery_step settings exec) ⟨balance0, 0, []⟩).balance =
      balance0 - ((loop_deductions settings exec
        (suggestions.take settings.trading.max_positions) balance0).take k).sum) ∧
    ((discovery_execute_loop settings exec suggestions balance0).balance =
      balance0 - (loop_deductions settings exec
        (suggestions.take settings.trading.max_positions) balance0).sum) ∧
    (∀ (b : ℚ) (s : AISuggestion),
      ((should_trade settings s b).1 = false →
        step_deduction settings exec b s = 0) ∧
      (∀ msg, exec s (should_trade settings s b).2.2 = .exn msg →
        step_deduction settings exec b s = 0) ∧
      (∀ order, exec s (should_trade settings s b).2.2 = .ord order →
        (order.status = OrderStatus.filled ∨ order.status = OrderStatus.pending) →
        (should_trade settings s b).1 = true →
        step_deduction settings exec b s = (should_trade settings s b).2.2) ∧
      (∀ order, exec s (should_trade settings s b).2.2 = .ord order →
        ¬ (order.status = OrderStatus.filled ∨ order.status = OrderStatus.pending) →
        step_deduction settings exec b s = 0)) := by
  refine ⟨?_, ?_, ?_⟩
  · intro k
    exact foldl_take_balance settings exec _ ⟨balance0, 0, []⟩ k
  · have h := foldl_take_balance settings exec
      (suggestions.take settings.trading.max_positions) ⟨balance0, 0, []⟩
      (suggestions.take settings.trading.max_positions).length
    unfold discovery_execute_loop
    rw [List.take_length] at h
    rw [h]
    rw [← loop_deductions_length settings exec
      (suggestions.take settings.trading.max_positions) balance0, List.take_length]
  · intro b s
    refine ⟨?_, ?_, ?_, ?_⟩
    · intro hgate
      unfold step_deduction
      dsimp only
      rw [if_neg (by rw [hgate]; exact Bool.false_ne_true)]
    · intro msg hexec
      unfold step_deduction
      dsimp only
      split_ifs with hgate
      · rw [hexec]
      · rfl
    · intro order hexec hstat hgate
      unfold step_deduction
      dsimp only
      rw [if_pos hgate, hexec]
      dsimp only
      rw [if_pos hstat]
    · intro order hexec hstat
      unfold step_deduction
      dsimp only
      split_ifs with hgate
      · rw [hexec]
        dsimp only
        rw [if_neg hstat]
      · rfl

/-- Witness for C7: one suggestion (the C1 scenario), an oracle that always
fills: after the first iteration the running balance is `1000 − 50 = 950`. -/
theorem discovery_running_balance_spec_witness :
    (discovery_execute_loop {}
      (fun _ _ => BuyOutcome.ord
        { market_id := "m1", outcome := "Yes", side := OrderSide.buy,
          price := 1/2, quantity := 100, total_value := 50,
          status := OrderStatus.filled })
      [⟨"m1", "", "Yes", 17/20, "", 1/10, RiskLevel.medium⟩] 1000).balance = 950 := by
  have h := (discovery_running_balance_spec {}
      (fun _ _ => BuyOutcome.ord
        { market_id := "m1", outcome := "Yes", side := OrderSide.buy,
          price := 1/2, quantity := 100, total_value := 50,
          status := OrderStatus.filled })
      [⟨"m1", "", "Yes", 17/20, "", 1/10, RiskLevel.medium⟩] 1000).2.1
  rw [h]
  norm_num [loop_deductions, step_deduction, should_trade]

end MoneyMaker
